import Mathlib

/-!
Verification of the visit-counter request handler (`src/counter.py`,
`lambda_handler`).

The handler is a stateless request/response transform around one external
DynamoDB `update_item` call.  We embed it shallowly:

* `JValue` is the codomain of Python's `json.loads` (restricted to the
  integer numbers the counter traffics in).
* `json.loads` itself is a library collaborator; the handler is
  parameterized by a function `jsonLoads : String → Except String JValue`
  where `.error msg` models the `json.JSONDecodeError` the library raises
  on malformed input.  `jsonLoadsFixture` below records the behavior of the
  real library on the concrete documents used in this development.
* The single `table.update_item` call is a second collaborator,
  `updateItem : JValue → UpdResult`; `healthyUpdate s` instantiates it
  with the documented DynamoDB semantics of the update expression
  `SET visit_count = if_not_exists(visit_count, :start) + :inc` over a
  store state `s`, captured by `atomicInc`.
* A response dictionary is a `Response`; its `body` field holds the value
  passed to `json.dumps` (serialization is injective on these values, so
  equality of the JSON text is equality of `JValue`s).
* An exception escaping `lambda_handler` is `HandlerOutcome.uncaught`.
  The list of store calls made during the invocation is recorded in the
  `.ok` outcome so that "exactly one / zero store calls" is provable.
-/

set_option autoImplicit false

namespace VisitCounter

/-- JSON values as produced by `json.loads`.  The counter only ever meets
integer numbers, so `jnum` carries an `Int`. -/
inductive JValue : Type where
  | jnull
  | jbool (b : Bool)
  | jnum (n : Int)
  | jstr (s : String)
  | jarr (elems : List JValue)
  | jobj (fields : List (String × JValue))

/-- Last-occurrence lookup in an association list: `json.loads` keeps the
last value for a duplicated object key, and a Python `dict` likewise lets
later assignments overwrite earlier ones. -/
def lookupLast (k : String) : List (String × JValue) → Option JValue
  | [] => none
  | (k', v) :: rest =>
    match lookupLast k rest with
    | some v' => some v'
    | none => if k' = k then some v else none

/-- Python truthiness (`bool(v)`) of a decoded JSON value: `None`, `False`,
`0`, `""`, `[]` and `\x7b\x7d` are falsy, everything else truthy. -/
def pyTruthy : JValue → Bool
  | .jnull => false
  | .jbool b => b
  | .jnum n => n != 0
  | .jstr s => s != ""
  | .jarr elems => !elems.isEmpty
  | .jobj fields => !fields.isEmpty

/-- Python `==` between a decoded JSON value and a string literal: only a
`str` can compare equal to a `str`. -/
def pyEqStr (v : JValue) (s : String) : Bool :=
  match v with
  | .jstr t => t == s
  | _ => false

/-- Python type name of a decoded JSON value, for `AttributeError` texts
(the exact CPython message wording is abstracted). -/
def pyTypeName : JValue → String
  | .jnull => "NoneType"
  | .jbool _ => "bool"
  | .jnum _ => "int"
  | .jstr _ => "str"
  | .jarr _ => "list"
  | .jobj _ => "dict"

/-- The `path` field of a mapping, defaulting to `"/"` when absent:
the value of `fields.get("path", "/")`. -/
def pathOf (fields : List (String × JValue)) : JValue :=
  (lookupLast "path" fields).getD (.jstr "/")

/-- Models `body.get("path", "/")`: on a mapping it returns the `path`
field, defaulting to `"/"`; on any non-mapping value it raises
`AttributeError` (caught by the handler's `except Exception`). -/
def pyGetPath : JValue → Except String JValue
  | .jobj fields => .ok (pathOf fields)
  | v => .error (pyTypeName v ++ " object has no attribute get")

/-- The persisted table state: `path` is the primary key, `visit_count`
the stored counter (absent until first increment). -/
abbrev Store := String → Option Nat

/-- The store with no records. -/
def emptyStore : Store := fun _ => none

/-- DynamoDB numbers arrive in Python as `decimal.Decimal`; we model a
decimal as `mantissa / 10 ^ scale`. -/
structure DDBDecimal : Type where
  mantissa : Int
  scale : Nat

/-- Python `int()` applied to a `Decimal` truncates toward zero. -/
def DDBDecimal.toPyInt (d : DDBDecimal) : Int :=
  d.mantissa.tdiv ((10 : Int) ^ d.scale)

/-- The decimal representation DynamoDB uses for a stored integer count. -/
def DDBDecimal.ofNat (n : Nat) : DDBDecimal := ⟨(n : Int), 0⟩

/-- Outcome of the single `table.update_item` call, as seen by the
handler: a returned `Attributes.visit_count` decimal, a raised
`botocore.exceptions.ClientError` (carrying `str(e)`), or any other
raised exception (carrying `str(e)`). -/
inductive UpdResult : Type where
  | ok (visitCount : DDBDecimal)
  | clientError (msg : String)
  | exn (msg : String)

/-- Semantics of the update expression
`SET visit_count = if_not_exists(visit_count, :start) + :inc` with
`:start = 0`, `:inc = 1`, executed atomically by DynamoDB: the new state
and the post-update value reported back (`ReturnValues="UPDATED_NEW"`). -/
def atomicInc (s : Store) (p : String) : Store × Nat :=
  let n := (s p).getD 0 + 1
  (fun q => if q = p then some n else s q, n)

/-- A healthy table over state `s`: a string key is incremented atomically;
a non-string key does not match the table's string key schema, so DynamoDB
rejects the request with a `ClientError` (behavior of the external store,
not exercised by any claim). -/
def healthyUpdate (s : Store) : JValue → UpdResult
  | .jstr p => .ok (.ofNat (atomicInc s p).2)
  | _ => .clientError "ValidationException: key element does not match the schema"

/-- The `body` field of the invocation event: absent, a raw JSON string,
or an already-decoded value. -/
inductive BodyField : Type where
  | absent
  | raw (s : String)
  | decoded (v : JValue)

/-- The invocation event (only its `body` field is consulted). -/
structure Event : Type where
  body : BodyField

/-- A response dictionary: `statusCode`, the optional `headers` key, and
the value serialized into `body` by `json.dumps`. -/
structure Response : Type where
  statusCode : Nat
  headers : Option (List (String × String))
  body : JValue

/-- What the hosting environment receives: a response dictionary together
with the trace of `update_item` keys sent to the store, or an exception
that escaped the handler. -/
inductive HandlerOutcome : Type where
  | ok (resp : Response) (storeCalls : List JValue)
  | uncaught (msg : String)

/-- Models lines 10–12 of `counter.py`:
`body = event.get("body", "\x7b\x7d")` followed by
`if isinstance(body, str): body = json.loads(body)`.
This runs before the `try:` block, so a decode failure is `.error`. -/
def decodeBody (jsonLoads : String → Except String JValue) :
    BodyField → Except String JValue
  | .absent => jsonLoads "\x7b\x7d"
  | .raw s => jsonLoads s
  | .decoded v => .ok v

/-- The 400 response returned for a falsy path. -/
def missingPathResponse : Response :=
  ⟨400, none, .jobj [("error", .jstr "Missing path parameter")]⟩

/-- The 500 response built by both `except` clauses from `str(e)`. -/
def errorResponse (msg : String) : Response :=
  ⟨500, none, .jobj [("error", .jstr msg)]⟩

/-- The success headers attached at line 33–36 of `counter.py`. -/
def successHeaders : List (String × String) :=
  [("Access-Control-Allow-Origin", "*"), ("Content-Type", "application/json")]

/-- The 200 response for normalized path `np` and reported decimal `d`. -/
def successResponse (np : JValue) (d : DDBDecimal) : Response :=
  ⟨200, some successHeaders, .jobj [("path", np), ("visit_count", .jnum d.toPyInt)]⟩

/-- The `try:` block of `counter.py` (lines 14–48) together with its two
`except` clauses, which both map a raised exception `e` to
`\x7b"statusCode": 500, "body": \x7b"error": str(e)\x7d\x7d`.  Returns the
response and the list of `update_item` keys sent to the store. -/
def tryBlock (updateItem : JValue → UpdResult) (body : JValue) :
    Response × List JValue :=
  match pyGetPath body with
  | .error msg => (errorResponse msg, [])
  | .ok path0 =>
    if pyTruthy path0 = false then
      (missingPathResponse, [])
    else
      let path := if pyEqStr path0 "/" then JValue.jstr "/index.html" else path0
      match updateItem path with
      | .ok d => (successResponse path d, [path])
      | .clientError msg => (errorResponse msg, [path])
      | .exn msg => (errorResponse msg, [path])

/-- Shallow embedding of `lambda_handler` (`src/counter.py`, lines 9–48),
parameterized by the two external collaborators `json.loads` and
`table.update_item`.  Body decoding happens before the `try:` block, so
its failure becomes `.uncaught`. -/
def lambda_handler (jsonLoads : String → Except String JValue)
    (updateItem : JValue → UpdResult) (event : Event) : HandlerOutcome :=
  match decodeBody jsonLoads event.body with
  | .error msg => .uncaught msg
  | .ok body => .ok (tryBlock updateItem body).1 (tryBlock updateItem body).2

/-- Path normalization of lines 15–23 of `counter.py`, restricted to the
string-valued paths the spec speaks about: `none` is an absent field
(defaulting to `"/"`), and the result is `none` exactly on the
`Missing path parameter` rejection. -/
def normalizePath (p : Option String) : Option String :=
  let path := p.getD "/"
  if path = "" then none
  else if path = "/" then some "/index.html"
  else some path

/-- Behavior of the real `json.loads` on the concrete documents used in
this development: `"\x7b\x7d"` decodes to the empty object, `"\x7b"` is
malformed and raises `json.JSONDecodeError`. -/
def jsonLoadsFixture : String → Except String JValue
  | "\x7b\x7d" => .ok (.jobj [])
  | s => .error ("Expecting property name enclosed in double quotes: " ++ s)

/-- A store client whose update call always raises `ClientError`. -/
def failingUpdate (msg : String) : JValue → UpdResult :=
  fun _ => .clientError msg

/-- `n` successive atomic increments on key `p`: final state and the list
of post-update values reported, in order.  Any concurrent execution of
`n` invocations is some interleaving of these indivisible store steps, so
its reported values are exactly such a sequence. -/
def iterateInc (s : Store) (p : String) : Nat → Store × List Nat
  | 0 => (s, [])
  | n + 1 =>
    let step := atomicInc s p
    let rest := iterateInc step.1 p n
    (rest.1, step.2 :: rest.2)

/-! ### Helper lemmas -/

lemma normalizePath_some_iff (p np : String) :
    normalizePath (some p) = some np ↔
      p ≠ "" ∧ np = if p = "/" then "/index.html" else p := by
  unfold normalizePath
  by_cases h1 : p = "" <;> by_cases h2 : p = "/" <;> simp_all [eq_comm]

lemma lambda_handler_decode_ok (jsonLoads : String → Except String JValue)
    (updateItem : JValue → UpdResult) (event : Event) (v : JValue)
    (hdec : decodeBody jsonLoads event.body = .ok v) :
    lambda_handler jsonLoads updateItem event =
      .ok (tryBlock updateItem v).1 (tryBlock updateItem v).2 := by
  unfold lambda_handler
  rw [hdec]

lemma tryBlock_update_branch (updateItem : JValue → UpdResult)
    (fs : List (String × JValue)) (p np : String)
    (hp : pathOf fs = .jstr p) (hnorm : normalizePath (some p) = some np) :
    tryBlock updateItem (.jobj fs) =
      (match updateItem (.jstr np) with
       | .ok d => (successResponse (.jstr np) d, [.jstr np])
       | .clientError msg => (errorResponse msg, [.jstr np])
       | .exn msg => (errorResponse msg, [.jstr np])) := by
  obtain ⟨hne, hnp⟩ := (normalizePath_some_iff p np).1 hnorm
  by_cases hc : p = "/"
  · have hnp' : np = "/index.html" := by rw [hnp, if_pos hc]
    subst hnp'
    subst hc
    simp [tryBlock, pyGetPath, hp, pyTruthy, pyEqStr]
  · have hnp' : np = p := by rw [hnp, if_neg hc]
    subst hnp'
    simp [tryBlock, pyGetPath, hp, pyTruthy, pyEqStr, hne, hc]

lemma tryBlock_falsy (updateItem : JValue → UpdResult)
    (fs : List (String × JValue)) (v : JValue)
    (hp : lookupLast "path" fs = some v) (hfalsy : pyTruthy v = false) :
    tryBlock updateItem (.jobj fs) = (missingPathResponse, []) := by
  simp [tryBlock, pyGetPath, pathOf, hp, hfalsy]

lemma tryBlock_statusCode (updateItem : JValue → UpdResult) (v : JValue) :
    (tryBlock updateItem v).1.statusCode = 200 ∨
      (tryBlock updateItem v).1.statusCode = 400 ∨
      (tryBlock updateItem v).1.statusCode = 500 := by
  unfold tryBlock
  cases hv : pyGetPath v with
  | error msg => simp [errorResponse]
  | ok path0 =>
    by_cases ht : pyTruthy path0 = false
    · simp [ht, missingPathResponse]
    · simp only [ht, if_neg]
      cases hu : updateItem (if pyEqStr path0 "/" then JValue.jstr "/index.html" else path0) <;>
        simp [ht, hu, successResponse, errorResponse, missingPathResponse]

lemma tryBlock_calls_length (updateItem : JValue → UpdResult) (v : JValue) :
    (tryBlock updateItem v).2.length ≤ 1 := by
  unfold tryBlock
  cases hv : pyGetPath v with
  | error msg => simp
  | ok path0 =>
    by_cases ht : pyTruthy path0 = false
    · simp [ht]
    · simp only [ht, if_neg]
      cases hu : updateItem (if pyEqStr path0 "/" then JValue.jstr "/index.html" else path0) <;>
        simp [ht, hu]

lemma atomicInc_at (s : Store) (p : String) :
    (atomicInc s p).1 p = some ((s p).getD 0 + 1) ∧
      (atomicInc s p).2 = (s p).getD 0 + 1 := by
  simp [atomicInc]

lemma healthyUpdate_jstr (s : Store) (p : String) :
    healthyUpdate s (.jstr p) = .ok (.ofNat ((s p).getD 0 + 1)) := rfl

lemma toPyInt_ofNat (n : Nat) : (DDBDecimal.ofNat n).toPyInt = (n : Int) := by
  simp [DDBDecimal.ofNat, DDBDecimal.toPyInt]

lemma iterateInc_results (p : String) (n : Nat) (s : Store) :
    (iterateInc s p n).2 = (List.range n).map (fun i => (s p).getD 0 + 1 + i) := by
  induction n generalizing s with
  | zero => simp [iterateInc]
  | succ m ih =>
    have hstep : ((atomicInc s p).1 p).getD 0 = (s p).getD 0 + 1 := by
      simp [atomicInc]
    have h2 : (atomicInc s p).2 = (s p).getD 0 + 1 := by
      simp [atomicInc]
    have hunfold : (iterateInc s p (m + 1)).2 =
        (atomicInc s p).2 :: (iterateInc (atomicInc s p).1 p m).2 := rfl
    rw [hunfold, ih, hstep, h2, List.range_succ_eq_map, List.map_cons, List.map_map]
    congr 1
    apply List.map_congr_left
    intro i _
    simp only [Function.comp_apply]
    omega

/-! ### Claim theorems -/

/-- Claim C1: path normalization is deterministic and total over its
cases — an absent path defaults to `"/"` and hence resolves to
`"/index.html"`, an explicit `"/"` is rewritten to `"/index.html"`, and
every other non-empty path is used unchanged. -/
theorem norm_total_cases (p : String) (h1 : p ≠ "") (h2 : p ≠ "/") :
    normalizePath none = some "/index.html" ∧
    normalizePath (some "/") = some "/index.html" ∧
    normalizePath (some p) = some p := by
  refine ⟨rfl, rfl, ?_⟩
  simp [normalizePath, h1, h2]

theorem norm_total_cases_witness :
    normalizePath none = some "/index.html" ∧
    normalizePath (some "/") = some "/index.html" ∧
    normalizePath (some "/about") = some "/about" :=
  norm_total_cases "/about" (by decide) (by decide)

/-- Claim C2: on the success path the handler issues exactly one store
call, keyed by the normalized path, whose semantics are the conditional
upsert-increment `visit_count = (existing or 0) + 1`; the response count
is the post-update value reported by the store for that call; on the
empty-path validation failure zero store calls are made. -/
theorem single_atomic_upsert (jsonLoads : String → Except String JValue)
    (s : Store) (fs : List (String × JValue)) (p np : String)
    (hp : pathOf fs = .jstr p) (hnorm : normalizePath (some p) = some np) :
    lambda_handler jsonLoads (healthyUpdate s) ⟨.decoded (.jobj fs)⟩ =
      .ok (successResponse (.jstr np) (.ofNat ((s np).getD 0 + 1))) [.jstr np] ∧
    (atomicInc s np).1 np = some ((s np).getD 0 + 1) ∧
    (atomicInc s np).2 = (s np).getD 0 + 1 ∧
    (successResponse (.jstr np) (.ofNat ((s np).getD 0 + 1))).body =
      .jobj [("path", .jstr np),
             ("visit_count", .jnum (((s np).getD 0 + 1 : Nat) : Int))] ∧
    (∀ fs2, lookupLast "path" fs2 = some (.jstr "") →
      lambda_handler jsonLoads (healthyUpdate s) ⟨.decoded (.jobj fs2)⟩ =
        .ok missingPathResponse []) := by
  refine ⟨?_, (atomicInc_at s np).1, (atomicInc_at s np).2, ?_, ?_⟩
  · rw [lambda_handler_decode_ok jsonLoads (healthyUpdate s) ⟨.decoded (.jobj fs)⟩
        (.jobj fs) rfl,
      tryBlock_update_branch (healthyUpdate s) fs p np hp hnorm, healthyUpdate_jstr]
  · simp [successResponse, toPyInt_ofNat]
  · intro fs2 hp2
    rw [lambda_handler_decode_ok jsonLoads (healthyUpdate s) ⟨.decoded (.jobj fs2)⟩
        (.jobj fs2) rfl,
      tryBlock_falsy (healthyUpdate s) fs2 (.jstr "") hp2 rfl]

theorem single_atomic_upsert_witness :
    lambda_handler jsonLoadsFixture (healthyUpdate emptyStore)
        ⟨.decoded (.jobj [("path", .jstr "/about")])⟩ =
      .ok (successResponse (.jstr "/about") (.ofNat 1)) [.jstr "/about"] ∧
    (atomicInc emptyStore "/about").1 "/about" = some 1 ∧
    (atomicInc emptyStore "/about").2 = 1 ∧
    (successResponse (.jstr "/about") (.ofNat 1)).body =
      .jobj [("path", .jstr "/about"), ("visit_count", .jnum 1)] ∧
    lambda_handler jsonLoadsFixture (healthyUpdate emptyStore)
        ⟨.decoded (.jobj [("path", .jstr "")])⟩ =
      .ok missingPathResponse [] := by
  have h := single_atomic_upsert jsonLoadsFixture emptyStore
    [("path", .jstr "/about")] "/about" "/about" rfl rfl
  exact ⟨h.1, h.2.1, h.2.2.1, h.2.2.2.1, h.2.2.2.2 [("path", .jstr "")] rfl⟩

/-- Claim C3 (as stated, refuted): a malformed JSON string body makes
`json.loads` raise before the `try:` block, and the exception escapes
`lambda_handler` instead of being converted to a structured response. -/
theorem decode_failure_escapes :
    lambda_handler jsonLoadsFixture (healthyUpdate emptyStore) ⟨.raw "\x7b"⟩ =
      .uncaught ("Expecting property name enclosed in double quotes: \x7b") := rfl

/-- Claim C3 (amended): every failure arising inside the `try:` block is
caught and converted to a structured response with status 200, 400 or
500; only a body-decode failure, which happens before the `try:` block,
escapes.  So whenever the body decodes, the caller receives a well-formed
response. -/
theorem try_block_failures_contained (jsonLoads : String → Except String JValue)
    (upd : JValue → UpdResult) (event : Event) (v : JValue)
    (hdec : decodeBody jsonLoads event.body = .ok v) :
    ∃ resp calls, lambda_handler jsonLoads upd event = .ok resp calls ∧
      (resp.statusCode = 200 ∨ resp.statusCode = 400 ∨ resp.statusCode = 500) :=
  ⟨(tryBlock upd v).1, (tryBlock upd v).2,
    lambda_handler_decode_ok jsonLoads upd event v hdec, tryBlock_statusCode upd v⟩

theorem try_block_failures_contained_witness :
    ∃ resp calls,
      lambda_handler jsonLoadsFixture (healthyUpdate emptyStore)
          ⟨.decoded (.jobj [])⟩ = .ok resp calls ∧
      (resp.statusCode = 200 ∨ resp.statusCode = 400 ∨ resp.statusCode = 500) :=
  try_block_failures_contained jsonLoadsFixture (healthyUpdate emptyStore)
    ⟨.decoded (.jobj [])⟩ (.jobj []) rfl

/-- Claim C4: a body whose `path` field is the empty string yields status
400 with body `\x7b"error": "Missing path parameter"\x7d` and no store
call. -/
theorem empty_path_400_no_call (jsonLoads : String → Except String JValue)
    (upd : JValue → UpdResult) (event : Event) (fs : List (String × JValue))
    (hdec : decodeBody jsonLoads event.body = .ok (.jobj fs))
    (hp : lookupLast "path" fs = some (.jstr "")) :
    lambda_handler jsonLoads upd event =
      .ok ⟨400, none, .jobj [("error", .jstr "Missing path parameter")]⟩ [] := by
  rw [lambda_handler_decode_ok jsonLoads upd event _ hdec,
    tryBlock_falsy upd fs (.jstr "") hp rfl]
  rfl

theorem empty_path_400_no_call_witness :
    lambda_handler jsonLoadsFixture (healthyUpdate emptyStore)
        ⟨.decoded (.jobj [("path", .jstr "")])⟩ =
      .ok ⟨400, none, .jobj [("error", .jstr "Missing path parameter")]⟩ [] :=
  empty_path_400_no_call jsonLoadsFixture (healthyUpdate emptyStore)
    ⟨.decoded (.jobj [("path", .jstr "")])⟩ [("path", .jstr "")] rfl rfl

/-- Claim C5: every successful invocation returns status 200 with
exactly the CORS and content-type headers and a JSON body
`\x7b"path": <normalized path>, "visit_count": <integer>\x7d`, where the
`path` field is the normalized path and the count is a plain integer. -/
theorem success_response_shape (jsonLoads : String → Except String JValue)
    (upd : JValue → UpdResult) (fs : List (String × JValue)) (p np : String)
    (d : DDBDecimal)
    (hp : pathOf fs = .jstr p) (hnorm : normalizePath (some p) = some np)
    (hupd : upd (.jstr np) = .ok d) :
    lambda_handler jsonLoads upd ⟨.decoded (.jobj fs)⟩ =
      .ok ⟨200,
           some [("Access-Control-Allow-Origin", "*"),
                 ("Content-Type", "application/json")],
           .jobj [("path", .jstr np), ("visit_count", .jnum d.toPyInt)]⟩
        [.jstr np] := by
  rw [lambda_handler_decode_ok jsonLoads upd ⟨.decoded (.jobj fs)⟩ (.jobj fs) rfl,
    tryBlock_update_branch upd fs p np hp hnorm, hupd]
  rfl

theorem success_response_shape_witness :
    lambda_handler jsonLoadsFixture (healthyUpdate emptyStore)
        ⟨.decoded (.jobj [("path", .jstr "/about")])⟩ =
      .ok ⟨200,
           some [("Access-Control-Allow-Origin", "*"),
                 ("Content-Type", "application/json")],
           .jobj [("path", .jstr "/about"), ("visit_count", .jnum 1)]⟩
        [.jstr "/about"] :=
  success_response_shape jsonLoadsFixture (healthyUpdate emptyStore)
    [("path", .jstr "/about")] "/about" "/about" (.ofNat 1) rfl rfl rfl

/-- Claim C6: when the store client raises `ClientError` during the
update, the handler returns status 500 with body
`\x7b"error": <store error message>\x7d`. -/
theorem store_failure_500 (jsonLoads : String → Except String JValue)
    (upd : JValue → UpdResult) (fs : List (String × JValue)) (p np m : String)
    (hp : pathOf fs = .jstr p) (hnorm : normalizePath (some p) = some np)
    (hupd : upd (.jstr np) = .clientError m) :
    lambda_handler jsonLoads upd ⟨.decoded (.jobj fs)⟩ =
      .ok ⟨500, none, .jobj [("error", .jstr m)]⟩ [.jstr np] := by
  rw [lambda_handler_decode_ok jsonLoads upd ⟨.decoded (.jobj fs)⟩ (.jobj fs) rfl,
    tryBlock_update_branch upd fs p np hp hnorm, hupd]
  rfl

theorem store_failure_500_witness :
    lambda_handler jsonLoadsFixture (failingUpdate "DynamoDB error")
        ⟨.decoded (.jobj [("path", .jstr "/test")])⟩ =
      .ok ⟨500, none, .jobj [("error", .jstr "DynamoDB error")]⟩
        [.jstr "/test"] :=
  store_failure_500 jsonLoadsFixture (failingUpdate "DynamoDB error")
    [("path", .jstr "/test")] "/test" "/test" "DynamoDB error" rfl rfl rfl

/-- Claim C7: a store-returned arbitrary-precision decimal equal to 42 is
coerced by `int()` to the plain integer 42 and serialized as the JSON
integer 42, not as the JSON string "42". -/
theorem decimal_coerced_to_int (jsonLoads : String → Except String JValue)
    (upd : JValue → UpdResult) (fs : List (String × JValue)) (p np : String)
    (d : DDBDecimal)
    (hp : pathOf fs = .jstr p) (hnorm : normalizePath (some p) = some np)
    (hupd : upd (.jstr np) = .ok d)
    (h42 : d.mantissa = 42 * 10 ^ d.scale) :
    d.toPyInt = 42 ∧
    lambda_handler jsonLoads upd ⟨.decoded (.jobj fs)⟩ =
      .ok ⟨200, some successHeaders,
           .jobj [("path", .jstr np), ("visit_count", .jnum 42)]⟩ [.jstr np] ∧
    JValue.jnum 42 ≠ JValue.jstr "42" := by
  have hto : d.toPyInt = 42 := by
    unfold DDBDecimal.toPyInt
    rw [h42]
    exact Int.mul_tdiv_cancel 42 (pow_ne_zero d.scale (by decide))
  refine ⟨hto, ?_, by intro h; cases h⟩
  rw [lambda_handler_decode_ok jsonLoads upd ⟨.decoded (.jobj fs)⟩ (.jobj fs) rfl,
    tryBlock_update_branch upd fs p np hp hnorm, hupd]
  simp [successResponse, hto]

theorem decimal_coerced_to_int_witness :
    (DDBDecimal.mk 420 1).toPyInt = 42 ∧
    lambda_handler jsonLoadsFixture (fun _ => .ok (DDBDecimal.mk 420 1))
        ⟨.decoded (.jobj [("path", .jstr "/test")])⟩ =
      .ok ⟨200, some successHeaders,
           .jobj [("path", .jstr "/test"), ("visit_count", .jnum 42)]⟩
        [.jstr "/test"] ∧
    JValue.jnum 42 ≠ JValue.jstr "42" :=
  decimal_coerced_to_int jsonLoadsFixture (fun _ => .ok (DDBDecimal.mk 420 1))
    [("path", .jstr "/test")] "/test" "/test" (DDBDecimal.mk 420 1)
    rfl rfl rfl (by decide)

/-- Claim C8: path normalization is idempotent — whenever it succeeds,
normalizing the result again returns it unchanged. -/
theorem normalize_idempotent (x : Option String) (y : String)
    (h : normalizePath x = some y) :
    normalizePath (some y) = some y := by
  cases x with
  | none =>
    have hy : y = "/index.html" := by
      have : normalizePath none = some "/index.html" := rfl
      rw [this] at h
      exact (Option.some_inj.1 h).symm
    subst hy
    rfl
  | some p =>
    obtain ⟨hne, hy⟩ := (normalizePath_some_iff p y).1 h
    by_cases hc : p = "/"
    · rw [hy, if_pos hc]
      rfl
    · rw [hy, if_neg hc]
      simp [normalizePath, hne, hc]

theorem normalize_idempotent_witness :
    normalizePath (some "/index.html") = some "/index.html" :=
  normalize_idempotent (some "/") "/index.html" rfl

/-- Claim C9: the handler performs no local read-then-write — any
invocation sends at most the one conditional update to the store — and
`n` atomic increments on the same path (any concurrent schedule is some
interleaving of these indivisible store steps) report exactly the `n`
consecutive integers starting at the previous count plus one: distinct,
sequential, no duplicates and no gaps. -/
theorem atomic_increment_sequential (s : Store) (p : String) (n : Nat) :
    (∀ (jsonLoads : String → Except String JValue) (upd : JValue → UpdResult)
        (event : Event) (resp : Response) (calls : List JValue),
      lambda_handler jsonLoads upd event = .ok resp calls → calls.length ≤ 1) ∧
    (iterateInc s p n).2 = (List.range n).map (fun i => (s p).getD 0 + 1 + i) ∧
    ((iterateInc s p n).2).Nodup := by
  refine ⟨?_, iterateInc_results p n s, ?_⟩
  · intro jsonLoads upd event resp calls h
    unfold lambda_handler at h
    cases hdec : decodeBody jsonLoads event.body with
    | error msg =>
      rw [hdec] at h
      cases h
    | ok v =>
      rw [hdec] at h
      cases h
      exact tryBlock_calls_length upd v
  · rw [iterateInc_results p n s]
    exact (List.nodup_range n).map (fun a b hab => by omega)

theorem atomic_increment_sequential_witness :
    ([JValue.jstr "/about"].length ≤ 1) ∧
    (iterateInc emptyStore "/about" 3).2 = [1, 2, 3] ∧
    ((iterateInc emptyStore "/about" 3).2).Nodup := by
  have h := atomic_increment_sequential emptyStore "/about" 3
  refine ⟨?_, ?_, h.2.2⟩
  · exact h.1 jsonLoadsFixture (healthyUpdate emptyStore)
      ⟨.decoded (.jobj [("path", .jstr "/about")])⟩
      (successResponse (.jstr "/about") (.ofNat 1)) [.jstr "/about"] rfl
  · rw [h.2.1]
    rfl

/-- Claim C10: the rejection is a truthiness check — any falsy `path`
value (empty string, JSON null, false, or 0) yields status 400 with body
`\x7b"error": "Missing path parameter"\x7d` and no store call. -/
theorem falsy_path_400 (jsonLoads : String → Except String JValue)
    (upd : JValue → UpdResult) (event : Event) (fs : List (String × JValue))
    (v : JValue)
    (hdec : decodeBody jsonLoads event.body = .ok (.jobj fs))
    (hp : lookupLast "path" fs = some v) (hfalsy : pyTruthy v = false) :
    (pyTruthy .jnull = false ∧ pyTruthy (.jbool false) = false ∧
      pyTruthy (.jnum 0) = false ∧ pyTruthy (.jstr "") = false) ∧
    lambda_handler jsonLoads upd event =
      .ok ⟨400, none, .jobj [("error", .jstr "Missing path parameter")]⟩ [] := by
  refine ⟨⟨rfl, rfl, by decide, rfl⟩, ?_⟩
  rw [lambda_handler_decode_ok jsonLoads upd event _ hdec,
    tryBlock_falsy upd fs v hp hfalsy]
  rfl

theorem falsy_path_400_witness :
    (pyTruthy .jnull = false ∧ pyTruthy (.jbool false) = false ∧
      pyTruthy (.jnum 0) = false ∧ pyTruthy (.jstr "") = false) ∧
    lambda_handler jsonLoadsFixture (healthyUpdate emptyStore)
        ⟨.decoded (.jobj [("path", .jnull)])⟩ =
      .ok ⟨400, none, .jobj [("error", .jstr "Missing path parameter")]⟩ [] :=
  falsy_path_400 jsonLoadsFixture (healthyUpdate emptyStore)
    ⟨.decoded (.jobj [("path", .jnull)])⟩ [("path", .jnull)] .jnull rfl rfl rfl

end VisitCounter
